import Mathlib

/-!
Verification of the whatsapp_bot relay (router + server services) against its
specification. The router's extraction and webhook handlers
(src/router/app/utils/parser.py, src/router/app/api/webhook.py,
src/router/app/main.py) and the server's transform endpoint
(src/server/app/main.py) are shallowly embedded below. Decoded JSON values are
modelled by the inductive `JSON`; the Python subscript and membership
operations used by the extraction code are modelled with their exception
behavior made explicit (`Except PyErr`). HTTP round-trips to external
collaborators (the processing backend, the outbound WhatsApp client) are
abstracted as oracle functions passed to the handler; returning a response
value from a handler corresponds to an HTTP 200 reply, raising `HTTPException`
or an uncaught error corresponds to the non-200 paths.
-/

/-- A decoded JSON value, as produced by Python's `json` decoding of a request
body. Object keys are unique (Python dict semantics after decoding).
Numbers are modelled as integers: no claim depends on non-integer numerics,
and the subscript/membership semantics below do not inspect numeric values. -/
inductive JSON where
  | null
  | bool (b : Bool)
  | num (n : Int)
  | str (s : String)
  | arr (elems : List JSON)
  | obj (fields : List (String × JSON))

/-- The Python exception kinds that matter to the extraction code:
`KeyError`, `IndexError`, `TypeError` are named in the monolithic extractor's
`except` clause (src/router/app/main.py line 118); `other` stands for any
further exception kind. -/
inductive PyErr where
  | keyError
  | indexError
  | typeError
  | other
deriving DecidableEq, Repr

/-- Whether the monolithic extractor's `except (KeyError, IndexError,
TypeError)` clause catches this exception. -/
def PyErr.caught : PyErr → Bool
  | .keyError => true
  | .indexError => true
  | .typeError => true
  | .other => false

/-- Python `v[k]` for a string key `k` on a decoded JSON value `v`:
dict lookup raising `KeyError` when absent; `TypeError` on a list, a string
(string indices must be integers), a number, a bool or `None`. -/
def pySubscriptStr (v : JSON) (k : String) : Except PyErr JSON :=
  match v with
  | .obj fields =>
    match fields.lookup k with
    | some x => .ok x
    | none => .error .keyError
  | _ => .error .typeError

/-- Python `v[i]` for an integer index `i` on a decoded JSON value `v`:
list indexing raising `IndexError` past the end; indexing a string yields the
one-character string at that position (or `IndexError`); a dict raises
`KeyError` (an integer is not among the decoded string keys); a number, bool
or `None` raises `TypeError`. -/
def pySubscriptNat (v : JSON) (i : Nat) : Except PyErr JSON :=
  match v with
  | .arr elems =>
    match elems.get? i with
    | some x => .ok x
    | none => .error .indexError
  | .str s =>
    match s.toList.get? i with
    | some c => .ok (.str (String.singleton c))
    | none => .error .indexError
  | .obj _ => .error .keyError
  | _ => .error .typeError

/-- Python `x == k` where `k` is a string: true exactly when `x` is the equal
string (Python equality between a string and a value of any other type is
false). -/
def pyEqStr (x : JSON) (k : String) : Bool :=
  match x with
  | .str s => s = k
  | _ => false

/-- Whether `needle` occurs as a contiguous sublist of `hay` (Python substring
membership `needle in hay` on strings). -/
def subListOf (needle hay : List Char) : Bool :=
  match hay with
  | [] => needle.isEmpty
  | _ :: t => needle.isPrefixOf hay || subListOf needle t

/-- Python `k in v` for a string `k`: key membership on a dict, element
membership on a list, substring test on a string, `TypeError` on a number,
bool or `None` (not iterable). -/
def pyContains (k : String) (v : JSON) : Except PyErr Bool :=
  match v with
  | .obj fields => .ok (fields.lookup k).isSome
  | .arr elems => .ok (elems.any (fun x => pyEqStr x k))
  | .str s => .ok (subListOf k.toList s.toList)
  | _ => .error .typeError

/-- The navigation performed by both extractors (src/router/app/utils/parser.py
lines 8-18 and src/router/app/main.py lines 98-116, whose bodies are
identical): `body["entry"][0]["changes"][0]["value"]`, the
`"messages" not in value` and `"text" not in msg` early returns, and the final
`msg["text"]["body"], msg["from"]`. An `Except.error` is an exception escaping
the `try` block. -/
def navigate (body : JSON) : Except PyErr (Option (JSON × JSON)) :=
  match pySubscriptStr body "entry" with
  | .error e => .error e
  | .ok entry =>
  match pySubscriptNat entry 0 with
  | .error e => .error e
  | .ok entry0 =>
  match pySubscriptStr entry0 "changes" with
  | .error e => .error e
  | .ok changes =>
  match pySubscriptNat changes 0 with
  | .error e => .error e
  | .ok change0 =>
  match pySubscriptStr change0 "value" with
  | .error e => .error e
  | .ok value =>
  match pyContains "messages" value with
  | .error e => .error e
  | .ok hasMessages =>
  if hasMessages = false then .ok none else
  match pySubscriptStr value "messages" with
  | .error e => .error e
  | .ok messages =>
  match pySubscriptNat messages 0 with
  | .error e => .error e
  | .ok msg =>
  match pyContains "text" msg with
  | .error e => .error e
  | .ok hasText =>
  if hasText = false then .ok none else
  match pySubscriptStr msg "text" with
  | .error e => .error e
  | .ok text =>
  match pySubscriptStr text "body" with
  | .error e => .error e
  | .ok textBody =>
  match pySubscriptStr msg "from" with
  | .error e => .error e
  | .ok sender => .ok (some (textBody, sender))

/-- The modular extractor, src/router/app/utils/parser.py lines 6-22: its
`except Exception` clause converts every exception raised during navigation
into `None`. -/
def extract_message_data (body : JSON) : Option (JSON × JSON) :=
  match navigate body with
  | .ok r => r
  | .error _ => none

/-- The monolithic extractor, src/router/app/main.py lines 87-120: the same
navigation, but the `except (KeyError, IndexError, TypeError)` clause catches
only those three kinds; any other exception would escape the function
(modelled as `Except.error`). -/
def extract_message_data_main (body : JSON) : Except PyErr (Option (JSON × JSON)) :=
  match navigate body with
  | .ok r => .ok r
  | .error e => if e.caught then .ok none else .error e

/-- The well-formed text-message payload used across the spec's examples. -/
def wellFormedPayload : JSON :=
  let message : JSON := JSON.obj
    [("from", JSON.str "1234567890"),
     ("text", JSON.obj [("body", JSON.str "Hello World")])]
  let value : JSON := JSON.obj [("messages", JSON.arr [message])]
  let change : JSON := JSON.obj [("value", value)]
  let entry : JSON := JSON.obj [("changes", JSON.arr [change])]
  JSON.obj [("entry", JSON.arr [entry])]

/-- A delivery-status payload: a `value` carrying only a `statuses` key. -/
def statusesPayload : JSON :=
  let value : JSON := JSON.obj
    [("statuses", JSON.arr [JSON.obj [("status", JSON.str "delivered")]])]
  let change : JSON := JSON.obj [("value", value)]
  let entry : JSON := JSON.obj [("changes", JSON.arr [change])]
  JSON.obj [("entry", JSON.arr [entry])]

/-- A payload whose first message is a non-text (image) message. -/
def nonTextMessagePayload : JSON :=
  let message : JSON := JSON.obj
    [("from", JSON.str "1234567890"),
     ("image", JSON.obj [("id", JSON.str "img-1")])]
  let value : JSON := JSON.obj [("messages", JSON.arr [message])]
  let change : JSON := JSON.obj [("value", value)]
  let entry : JSON := JSON.obj [("changes", JSON.arr [change])]
  JSON.obj [("entry", JSON.arr [entry])]

/-- The response schema of the router webhook receiver
(src/router/app/models/schemas.py): a status string and an optional message. -/
structure WebhookResponse where
  status : String
  message : Option String := none
deriving DecidableEq, Repr

/-- Outcome of the webhook verification endpoint: a 200 reply carrying the
parsed challenge, the raised `HTTPException(403, "Verification failed")`, or
the `ValueError` from `int(hub_challenge)` escaping the handler unhandled. -/
inductive VerifyOutcome where
  | ok (challenge : Int)
  | forbidden (detail : String)
  | unhandledValueError
deriving DecidableEq, Repr

/-- Python ASCII whitespace as stripped by `int()` before parsing. -/
def pyIsSpace (c : Char) : Bool :=
  c = ' ' || c = '\t' || c = '\n' || c = '\r' || c = '\x0b' || c = '\x0c'

/-- Modelled builtin: Python `int(s)` on an ASCII decimal literal. Strips
surrounding whitespace, accepts one optional sign followed by a nonempty
digit run; `none` is the raised `ValueError`. Underscore digit grouping and
non-ASCII digits, which real `int()` also accepts, are not modelled — no
claim depends on them. -/
def pyIntOfString (s : String) : Option Int :=
  let trimmed := ((s.toList.dropWhile pyIsSpace).reverse.dropWhile pyIsSpace).reverse
  match trimmed with
  | [] => none
  | c :: rest =>
    let signed : Bool × List Char :=
      if c = '-' then (true, rest)
      else if c = '+' then (false, rest)
      else (false, c :: rest)
    match signed with
    | (neg, digits) =>
      if digits.isEmpty || !digits.all Char.isDigit then none
      else
        let n : Nat := digits.foldl (fun acc d => acc * 10 + (d.toNat - 48)) 0
        some (if neg then -(n : Int) else (n : Int))

/-- The webhook verification handler (src/router/app/api/webhook.py lines
11-20; src/router/app/main.py lines 135-164 is textually the same logic):
on `hub.mode == "subscribe"` and a token equal to the configured
`WHATSAPP_WEBHOOK_VERIFY_TOKEN` (`secret` here), return `int(hub_challenge)`;
otherwise raise `HTTPException(403, "Verification failed")`. The `int` call
is unguarded, so a `ValueError` escapes. -/
def verify (hub_mode hub_challenge hub_token secret : String) : VerifyOutcome :=
  if hub_mode = "subscribe" ∧ hub_token = secret then
    match pyIntOfString hub_challenge with
    | some n => .ok n
    | none => .unhandledValueError
  else .forbidden "Verification failed"

/-- Everything the receive handler does in one call, with its outward calls
recorded: the response value it returns (always an HTTP 200), the arguments
of each processing-backend call, and the arguments of each outbound
`send_message` invocation. -/
structure ReceiveTrace where
  response : WebhookResponse
  backendCalls : List JSON
  sends : List (JSON × JSON)

/-- The webhook receiver (src/router/app/api/webhook.py lines 23-42;
src/router/app/main.py lines 167-206 is the same logic). `backend` abstracts
`call_backend` (src/router/app/services/backend_service.py lines 8-15): an
`Except.ok r` is an HTTP round-trip that returned 2xx with a JSON body
carrying a `reply` field equal to `r`; an `Except.error` is any exception it
raises (network error, timeout, `raise_for_status` on non-2xx, `KeyError`
for a missing `reply` field). `send` abstracts the outbound client's
`send_message(to=..., text=...)`; an `Except.error` is an exception it
raises. Both are called inside the handler's `try`, whose
`except Exception` turns any exception into the "error" response. The JSON
body parse preceding this (`await request.json()`) failing is a
framework-level 400 before the handler logic and is outside this model. -/
def receive_webhook (body : JSON)
    (backend : JSON → Except String JSON)
    (send : JSON → JSON → Except String Unit) : ReceiveTrace :=
  match extract_message_data body with
  | none => ⟨⟨"ignored", none⟩, [], []⟩
  | some (text, sender) =>
    match backend text with
    | .error e => ⟨⟨"error", some e⟩, [text], []⟩
    | .ok reply =>
      match send sender reply with
      | .ok _ => ⟨⟨"ok", none⟩, [text], [(sender, reply)]⟩
      | .error e => ⟨⟨"error", some e⟩, [text], [(sender, reply)]⟩

/-- Input schema of the server's /process endpoint
(src/server/app/main.py lines 16-25): a single required string field. -/
structure MessageIn where
  text : String
deriving DecidableEq, Repr

/-- Output schema of the server's /process endpoint
(src/server/app/main.py lines 28-39). -/
structure MessageOut where
  original : String
  reply : String
deriving DecidableEq, Repr

/-- Modelled builtin: `random.randint lo hi` draws uniformly from the closed
range `[lo, hi]`; the draw is modelled as `lo + seed % (hi - lo + 1)` for an
abstract generator state `seed`, which ranges over exactly `[lo, hi]`. -/
def randint (lo hi seed : Nat) : Nat :=
  lo + seed % (hi + 1 - lo)

/-- The server transform logic (src/server/app/main.py lines 48-64): draw
`random.randint(1000, 9999)` and format the reply around the input text,
echoed verbatim. -/
def process_message (text : String) (seed : Nat) : MessageOut :=
  let rnd := randint 1000 9999 seed
  { original := text,
    reply := "I received your message: \x27" ++ text
      ++ "\x27 and here is a random number: " ++ toString rnd }

/-- Request validation for the /process body, as FastAPI/pydantic performs it
for `MessageIn` before the handler runs: the body must be a JSON object, the
`text` field must be present and must be a string (pydantic v2 does not
coerce non-strings); `Except.error` is the 422 validation rejection with the
given detail. -/
def parseMessageIn (body : JSON) : Except String MessageIn :=
  match body with
  | .obj fields =>
    match fields.lookup "text" with
    | some (.str s) => .ok ⟨s⟩
    | some _ => .error "Input should be a valid string"
    | none => .error "Field required"
  | _ => .error "Input should be a valid dictionary"

/-- The full /process endpoint: validation then transform; `Except.error` is
the 422 response, `Except.ok` the 200 response. -/
def process_endpoint (body : JSON) (seed : Nat) : Except String MessageOut :=
  match parseMessageIn body with
  | .error e => .error e
  | .ok payload => .ok (process_message payload.text seed)

/-! ## Helper lemmas -/

/-- A successful string subscript on a value implies the Python membership
test of that key on the same value yields true. -/
theorem subscriptStr_contains {v : JSON} {k : String} {x : JSON}
    (h : pySubscriptStr v k = Except.ok x) : pyContains k v = Except.ok true := by
  unfold pySubscriptStr at h
  unfold pyContains
  repeat split at h
  all_goals cases h
  simp_all

/-- Any exception raised by a string subscript is among the three kinds the
monolithic extractor catches. -/
theorem pySubscriptStr_caught {v : JSON} {k : String} {e : PyErr}
    (h : pySubscriptStr v k = Except.error e) : e.caught = true := by
  unfold pySubscriptStr at h
  repeat split at h
  all_goals cases h
  all_goals rfl

/-- Any exception raised by an integer subscript is among the three kinds the
monolithic extractor catches. -/
theorem pySubscriptNat_caught {v : JSON} {i : Nat} {e : PyErr}
    (h : pySubscriptNat v i = Except.error e) : e.caught = true := by
  unfold pySubscriptNat at h
  iterate 4 (all_goals (try split at h))
  all_goals cases h
  all_goals rfl

/-- Any exception raised by the membership test is among the three kinds the
monolithic extractor catches. -/
theorem pyContains_caught {k : String} {v : JSON} {e : PyErr}
    (h : pyContains k v = Except.error e) : e.caught = true := by
  unfold pyContains at h
  repeat split at h
  all_goals cases h
  all_goals rfl

/-- Every exception escaping the navigation is one of `KeyError`,
`IndexError`, `TypeError`: the only primitive operations it performs are the
two subscript forms and the membership test, none of which raises anything
else. -/
theorem navigate_caught {body : JSON} {e : PyErr}
    (h : navigate body = Except.error e) : e.caught = true := by
  unfold navigate at h
  iterate 14 (all_goals (try split at h))
  all_goals cases h
  all_goals first
    | exact pySubscriptStr_caught (by assumption)
    | exact pySubscriptNat_caught (by assumption)
    | exact pyContains_caught (by assumption)

/-! ## Claim theorems -/

/-- C10: the modular extractor (which suppresses every exception) and the
monolithic extractor (which catches only `KeyError`, `IndexError`,
`TypeError`) agree on every decoded JSON input: the monolithic one never
propagates an exception, and both return the same pair or absence. -/
theorem extractors_agree (body : JSON) :
    extract_message_data_main body = Except.ok (extract_message_data body) := by
  unfold extract_message_data_main extract_message_data
  cases h : navigate body with
  | ok r => rfl
  | error e =>
    have hc := navigate_caught h
    simp [hc]

/-- C1: the modular extraction is total and never throws. Every exception
raised while navigating the payload is converted into absence, and each of
the spec's malformed families — the empty object, a payload missing `entry`,
an empty `entry` array, a wrong type at top level or below, a `value`
without a `messages` key, a first message without a `text` key — yields
absence. -/
theorem extraction_total_never_throws :
    (∀ (body : JSON) (e : PyErr), navigate body = Except.error e →
        extract_message_data body = none)
    ∧ extract_message_data (JSON.obj []) = none
    ∧ extract_message_data (JSON.obj [("other", JSON.str "x")]) = none
    ∧ extract_message_data (JSON.obj [("entry", JSON.arr [])]) = none
    ∧ extract_message_data (JSON.obj [("entry", JSON.str "wrong type")]) = none
    ∧ extract_message_data (JSON.num 5) = none
    ∧ extract_message_data JSON.null = none
    ∧ extract_message_data statusesPayload = none
    ∧ extract_message_data nonTextMessagePayload = none := by
  refine ⟨?_, rfl, rfl, rfl, rfl, rfl, rfl, rfl, rfl⟩
  intro body e h
  unfold extract_message_data
  rw [h]

/-- Closed witness for the universally quantified part of
`extraction_total_never_throws`, at the input `null`, on which navigation
raises `TypeError`. -/
theorem extraction_total_never_throws_witness :
    navigate JSON.null = Except.error PyErr.typeError
    ∧ extract_message_data JSON.null = none :=
  ⟨rfl, extraction_total_never_throws.1 JSON.null PyErr.typeError rfl⟩

/-- C7: extraction on the spec's well-formed text-message payload yields
exactly the pair `("Hello World", "1234567890")`; in general, whenever the
navigation to `value.messages[0]` succeeds and that message carries a `text`
field with a `body` (and a `from` field), extraction returns
`(value.messages[0].text.body, value.messages[0].from)`. -/
theorem extraction_wellformed :
    extract_message_data wellFormedPayload
      = some (JSON.str "Hello World", JSON.str "1234567890")
    ∧ ∀ (body entry entry0 changes change0 value messages msg text textBody
          sender : JSON),
        pySubscriptStr body "entry" = Except.ok entry →
        pySubscriptNat entry 0 = Except.ok entry0 →
        pySubscriptStr entry0 "changes" = Except.ok changes →
        pySubscriptNat changes 0 = Except.ok change0 →
        pySubscriptStr change0 "value" = Except.ok value →
        pySubscriptStr value "messages" = Except.ok messages →
        pySubscriptNat messages 0 = Except.ok msg →
        pySubscriptStr msg "text" = Except.ok text →
        pySubscriptStr text "body" = Except.ok textBody →
        pySubscriptStr msg "from" = Except.ok sender →
        extract_message_data body = some (textBody, sender) := by
  refine ⟨rfl, ?_⟩
  intro body entry entry0 changes change0 value messages msg text textBody
    sender h1 h2 h3 h4 h5 h6 h7 h8 h9 h10
  unfold extract_message_data navigate
  simp [h1, h2, h3, h4, h5, h6, h7, h8, h9, h10,
    subscriptStr_contains h6, subscriptStr_contains h8]

/-- Closed witness for `extraction_wellformed`, applying its general part to
the concrete well-formed payload. -/
theorem extraction_wellformed_witness :
    extract_message_data wellFormedPayload
      = some (JSON.str "Hello World", JSON.str "1234567890") :=
  extraction_wellformed.2 wellFormedPayload _ _ _ _ _ _ _ _ _ _
    rfl rfl rfl rfl rfl rfl rfl rfl rfl rfl

/-- C2 counterexample: the claim "verification succeeds if and only if
mode equals subscribe and the token equals the secret" fails in the
left-to-right completeness direction at the concrete input
mode = "subscribe", token = secret = "tok", challenge = "abc": the handler
neither succeeds (the unguarded `int("abc")` raises) nor returns a 403. -/
theorem verify_iff_counterexample :
    ¬ (∀ mode challenge token secret : String,
        mode = "subscribe" → token = secret →
        ∃ n, verify mode challenge token secret = VerifyOutcome.ok n) := by
  intro hclaim
  obtain ⟨n, hn⟩ := hclaim "subscribe" "abc" "tok" "tok" rfl rfl
  have hv : verify "subscribe" "abc" "tok" "tok"
      = VerifyOutcome.unhandledValueError := rfl
  rw [hv] at hn
  cases hn

/-- C2 (amended): verification succeeds — returning the parsed challenge —
exactly when the mode is "subscribe", the token equals the configured secret
(case-sensitive string equality), and the challenge parses as an integer;
for every (mode, token) pair violating the mode/token condition it rejects
with the 403 "Verification failed" error; when mode and token are right but
the challenge does not parse, the `ValueError` escapes unhandled instead. -/
theorem verify_amended (mode challenge token secret : String) :
    ((∃ n, verify mode challenge token secret = VerifyOutcome.ok n)
      ↔ (mode = "subscribe" ∧ token = secret ∧ (pyIntOfString challenge).isSome))
    ∧ (¬ (mode = "subscribe" ∧ token = secret) →
        verify mode challenge token secret
          = VerifyOutcome.forbidden "Verification failed")
    ∧ (∀ n : Int, mode = "subscribe" → token = secret →
        pyIntOfString challenge = some n →
        verify mode challenge token secret = VerifyOutcome.ok n) := by
  refine ⟨?_, ?_, ?_⟩
  · constructor
    · rintro ⟨n, hn⟩
      unfold verify at hn
      split at hn
      · rename_i hmode
        refine ⟨hmode.1, hmode.2, ?_⟩
        cases hp : pyIntOfString challenge with
        | some m => rfl
        | none => rw [hp] at hn; cases hn
      · cases hn
    · rintro ⟨hm, ht, hp⟩
      cases hsome : pyIntOfString challenge with
      | none => rw [hsome] at hp; cases hp
      | some n =>
        refine ⟨n, ?_⟩
        unfold verify
        rw [if_pos ⟨hm, ht⟩, hsome]
  · intro hneg
    unfold verify
    rw [if_neg hneg]
  · intro n hm ht hp
    unfold verify
    rw [if_pos ⟨hm, ht⟩, hp]

/-- Closed witness for `verify_amended`: the spec's example handshake,
mode "subscribe", challenge "12345", matching token, yields the integer
12345. -/
theorem verify_amended_witness :
    verify "subscribe" "12345" "tok" "tok" = VerifyOutcome.ok 12345 :=
  (verify_amended "subscribe" "12345" "tok" "tok").2.2 12345 rfl rfl rfl

/-- C9: when the mode is "subscribe" and the token is correct but the
challenge is not a valid integer, the `int()` parse failure is not caught by
the handler: the outcome is the escaping `ValueError`, never the 403
"Verification failed" rejection. -/
theorem challenge_parse_failure_unhandled (challenge secret : String)
    (h : pyIntOfString challenge = none) :
    verify "subscribe" challenge secret secret = VerifyOutcome.unhandledValueError
    ∧ ∀ d : String,
        verify "subscribe" challenge secret secret ≠ VerifyOutcome.forbidden d := by
  have hv : verify "subscribe" challenge secret secret
      = VerifyOutcome.unhandledValueError := by
    unfold verify
    rw [if_pos ⟨rfl, rfl⟩, h]
  exact ⟨hv, fun d hd => by rw [hv] at hd; cases hd⟩

/-- Closed witness for `challenge_parse_failure_unhandled` at the
non-numeric challenge "abc". -/
theorem challenge_parse_failure_unhandled_witness :
    pyIntOfString "abc" = none
    ∧ verify "subscribe" "abc" "tok" "tok" = VerifyOutcome.unhandledValueError :=
  ⟨rfl, (challenge_parse_failure_unhandled "abc" "tok" rfl).1⟩

/-- C6: the transform returns the input exactly as `original`, and the reply
is the format string embedding the input verbatim together with a generated
integer in the closed range 1000 to 9999. -/
theorem process_message_format (text : String) (seed : Nat) :
    (process_message text seed).original = text
    ∧ ∃ n : Nat, 1000 ≤ n ∧ n ≤ 9999
        ∧ (process_message text seed).reply
          = "I received your message: \x27" ++ text
            ++ "\x27 and here is a random number: " ++ toString n := by
  refine ⟨rfl, randint 1000 9999 seed, ?_, ?_, rfl⟩
  · unfold randint; omega
  · unfold randint; omega

/-- C8: the /process endpoint rejects a body whose object lacks the `text`
field with the validation error before the transform logic runs, and accepts
any string `text` — the empty string and arbitrarily long strings included —
carrying it through to `original` without truncation. -/
theorem process_validation :
    (∀ (fields : List (String × JSON)) (seed : Nat),
        fields.lookup "text" = none →
        process_endpoint (JSON.obj fields) seed = Except.error "Field required")
    ∧ (∀ (s : String) (seed : Nat),
        process_endpoint (JSON.obj [("text", JSON.str s)]) seed
          = Except.ok (process_message s seed)
        ∧ (process_message s seed).original = s) := by
  constructor
  · intro fields seed h
    simp [process_endpoint, parseMessageIn, h]
  · intro s seed
    constructor
    · unfold process_endpoint parseMessageIn
      simp [List.lookup]
    · rfl

/-- Closed witness for `process_validation`: a body with a different key is
rejected with the missing-field validation error. -/
theorem process_validation_witness :
    process_endpoint (JSON.obj [("other", JSON.num 1)]) 0
      = Except.error "Field required" :=
  process_validation.1 [("other", JSON.num 1)] 0 rfl

/-- C5: whenever extraction yields absence — in particular on the
statuses-only payload — the receive handler responds with the ignored
status (an HTTP 200, since the handler returns normally), contacts the
backend zero times, and invokes the outbound client zero times. -/
theorem ignored_no_side_effects :
    extract_message_data statusesPayload = none
    ∧ ∀ (body : JSON) (backend : JSON → Except String JSON)
        (send : JSON → JSON → Except String Unit),
        extract_message_data body = none →
        receive_webhook body backend send
          = ⟨⟨"ignored", none⟩, [], []⟩ := by
  refine ⟨rfl, ?_⟩
  intro body backend send h
  unfold receive_webhook
  rw [h]

/-- Closed witness for `ignored_no_side_effects` at the statuses-only
payload. -/
theorem ignored_no_side_effects_witness :
    receive_webhook statusesPayload (fun t => Except.ok t)
        (fun _ _ => Except.ok ())
      = ⟨⟨"ignored", none⟩, [], []⟩ :=
  ignored_no_side_effects.2 statusesPayload _ _ rfl

/-- C4: when the backend call raises (network error, timeout, non-2xx via
raise_for_status, or missing `reply` field), the handler returns the error
response (an HTTP 200, since the handler returns normally) carrying the
failure description, with zero sends; when the outbound send raises after a
successful backend call, the handler likewise returns the error response;
and on every receive call the outbound client is invoked at most once, and
only with the reply of a successful backend response. -/
theorem backend_failure_no_send (body : JSON)
    (backend : JSON → Except String JSON)
    (send : JSON → JSON → Except String Unit) :
    (∀ (text sender : JSON) (e : String),
        extract_message_data body = some (text, sender) →
        backend text = Except.error e →
        receive_webhook body backend send = ⟨⟨"error", some e⟩, [text], []⟩)
    ∧ (∀ (text sender reply : JSON) (e : String),
        extract_message_data body = some (text, sender) →
        backend text = Except.ok reply →
        send sender reply = Except.error e →
        (receive_webhook body backend send).response = ⟨"error", some e⟩)
    ∧ (receive_webhook body backend send).sends.length ≤ 1
    ∧ (∀ p : JSON × JSON, p ∈ (receive_webhook body backend send).sends →
        ∃ (text sender reply : JSON),
          extract_message_data body = some (text, sender)
          ∧ backend text = Except.ok reply ∧ p = (sender, reply)) := by
  refine ⟨?_, ?_, ?_, ?_⟩
  · intro text sender e hx hb
    simp [receive_webhook, hx, hb]
  · intro text sender reply e hx hb hs
    simp [receive_webhook, hx, hb, hs]
  · cases hx : extract_message_data body with
    | none => simp [receive_webhook, hx]
    | some ts =>
      obtain ⟨t, s⟩ := ts
      cases hb : backend t with
      | error e => simp [receive_webhook, hx, hb]
      | ok reply => cases hs : send s reply <;> simp [receive_webhook, hx, hb, hs]
  · intro p hp
    cases hx : extract_message_data body with
    | none => simp [receive_webhook, hx] at hp
    | some ts =>
      obtain ⟨t, s⟩ := ts
      cases hb : backend t with
      | error e => simp [receive_webhook, hx, hb] at hp
      | ok reply =>
        refine ⟨t, s, reply, rfl, hb, ?_⟩
        cases hs : send s reply with
        | ok u => simpa [receive_webhook, hx, hb, hs] using hp
        | error e => simpa [receive_webhook, hx, hb, hs] using hp

/-- Closed witness for `backend_failure_no_send`: the backend raising on the
well-formed payload yields the error response with the failure message and
no send. -/
theorem backend_failure_no_send_witness :
    receive_webhook wellFormedPayload (fun _ => Except.error "boom")
        (fun _ _ => Except.ok ())
      = ⟨⟨"error", some "boom"⟩, [JSON.str "Hello World"], []⟩ :=
  (backend_failure_no_send wellFormedPayload _ _).1
    (JSON.str "Hello World") (JSON.str "1234567890") "boom" rfl rfl

/-- C3 counterexample: with extraction succeeding and the backend call
succeeding, but the outbound send raising, the handler returns the error
status, not the claimed ok status — so "backend success implies the send is
invoked once with the backend reply AND the handler returns status ok" is
false as stated (the send-invocation half does hold at this input). -/
theorem reply_relay_counterexample :
    ¬ (∀ (body : JSON) (backend : JSON → Except String JSON)
        (send : JSON → JSON → Except String Unit) (text sender reply : JSON),
        extract_message_data body = some (text, sender) →
        backend text = Except.ok reply →
        (receive_webhook body backend send).sends = [(sender, reply)]
        ∧ (receive_webhook body backend send).response.status = "ok") := by
  intro hclaim
  have h := hclaim wellFormedPayload (fun _ => Except.ok (JSON.str "r"))
    (fun _ _ => Except.error "send failed")
    (JSON.str "Hello World") (JSON.str "1234567890") (JSON.str "r") rfl rfl
  have herr : (receive_webhook wellFormedPayload
      (fun _ => Except.ok (JSON.str "r"))
      (fun _ _ => Except.error "send failed")).response.status = "error" := rfl
  rw [herr] at h
  exact absurd h.2 (by decide)

/-- C3 (amended): whenever extraction yields (text, sender) and the backend
call succeeds with a reply, the outbound client is invoked exactly once,
with recipient sender and message text equal to that reply; when that send
also returns normally, the handler returns the ok status (when the send
raises, it returns the error status instead, per C4). -/
theorem reply_relay_amended (body : JSON)
    (backend : JSON → Except String JSON)
    (send : JSON → JSON → Except String Unit)
    (text sender reply : JSON)
    (hx : extract_message_data body = some (text, sender))
    (hb : backend text = Except.ok reply) :
    (receive_webhook body backend send).sends = [(sender, reply)]
    ∧ (send sender reply = Except.ok () →
        receive_webhook body backend send
          = ⟨⟨"ok", none⟩, [text], [(sender, reply)]⟩) := by
  constructor
  · cases hs : send sender reply with
    | ok u => simp [receive_webhook, hx, hb, hs]
    | error e => simp [receive_webhook, hx, hb, hs]
  · intro hs
    simp [receive_webhook, hx, hb, hs]

/-- Closed witness for `reply_relay_amended`: the full happy path on the
well-formed payload relays the backend reply to the extracted sender once
and answers ok. -/
theorem reply_relay_amended_witness :
    receive_webhook wellFormedPayload (fun _ => Except.ok (JSON.str "r"))
        (fun _ _ => Except.ok ())
      = ⟨⟨"ok", none⟩, [JSON.str "Hello World"],
          [(JSON.str "1234567890", JSON.str "r")]⟩ :=
  (reply_relay_amended wellFormedPayload _ _
    (JSON.str "Hello World") (JSON.str "1234567890") (JSON.str "r")
    rfl rfl).2 rfl
